import Mathlib

/-!
Shallow embedding of the lighthouse-audit-dashboard aggregation core
(`src/data_analyzer.py` and the issue-simplification part of
`src/report_generator.py`), together with theorems checking the
natural-language specification against it.

Modelling conventions:
* Python `dict` → association list `List (String × β)` in insertion order
  (Python 3.7+ dicts iterate in first-insertion order).
* Python `float` → `ℚ`; `round(x, n)` → round-half-to-even (`pyRound`).
* Missing keys / `None` → `Option`.
* Python `set` → `List String` with first-seen insertion (`insertUniq`);
  only membership and the final sorted form are ever observed.
-/

/-- Round-half-to-even to the nearest integer (Python's rounding policy). -/
def roundHalfEven (q : ℚ) : ℤ :=
  let f : ℤ := q.floor
  let r : ℚ := q - (f : ℚ)
  if r < 1/2 then f
  else if 1/2 < r then f + 1
  else if f % 2 = 0 then f else f + 1

/-- Python `round(q, n)`. -/
def pyRound (n : ℕ) (q : ℚ) : ℚ := ((roundHalfEven (q * 10 ^ n) : ℤ) : ℚ) / 10 ^ n

/-- `dict.get(k)` on an association list: first entry with key `k`. -/
def lookupKey {β : Type} (k : String) : List (String × β) → Option β
  | [] => none
  | p :: rest => if p.1 = k then some p.2 else lookupKey k rest

/-- Add an element to a first-seen-ordered set representation. -/
def insertUniq (l : List String) (x : String) : List String :=
  if x ∈ l then l else l ++ [x]

/-- `defaultdict`-style update: modify the entry at `k` in place (keeping its
position) when present, otherwise append a fresh entry built from default `d`. -/
def upsert {β : Type} (l : List (String × β)) (k : String) (d : β) (f : β → β) :
    List (String × β) :=
  match l with
  | [] => [(k, f d)]
  | p :: rest => if p.1 = k then (p.1, f p.2) :: rest else p :: upsert rest k d f

/-- One audit record inside a Lighthouse payload (`audits[audit_id]`). -/
structure AuditData where
  score : Option ℚ := none
  scoreDisplayMode : Option String := none
  numericValue : Option ℚ := none
  title : Option String := none
  description : Option String := none
  displayValue : Option String := none
  metricSavings : List (String × ℚ) := []
deriving DecidableEq

/-- One category result (`categories[cat_id]`); an audit ref is kept as its id. -/
structure CategoryData where
  score : Option ℚ := none
  auditRefs : List String := []
deriving DecidableEq

/-- A raw Lighthouse payload: the `audits` and `categories` dicts. -/
structure LighthouseResult where
  audits : List (String × AuditData) := []
  categories : List (String × CategoryData) := []
deriving DecidableEq

/-- `METRIC_AUDITS`: the nine reserved metric identifiers. -/
def METRIC_AUDITS : List String :=
  ["largest-contentful-paint",
   "first-contentful-paint",
   "speed-index",
   "interactive",
   "total-blocking-time",
   "cumulative-layout-shift",
   "max-potential-fid",
   "first-meaningful-paint",
   "server-response-time"]

/-- `METRIC_WEIGHTS`: weights of the metrics in the performance score. -/
def METRIC_WEIGHTS : List (String × ℕ) :=
  [("TBT", 30), ("LCP", 25), ("CLS", 25), ("FCP", 10), ("SI", 10)]

/-- Value type of `AUDIT_IMPACT_MAP`. -/
structure ImpactInfo where
  impact : String
  metrics : List String
deriving DecidableEq

/-- `AUDIT_IMPACT_MAP`: static audit-id → impact/affected-metrics table. -/
def AUDIT_IMPACT_MAP : List (String × ImpactInfo) :=
  [("largest-contentful-paint", ⟨"high", ["LCP"]⟩),
   ("first-contentful-paint", ⟨"medium", ["FCP"]⟩),
   ("speed-index", ⟨"medium", ["SI"]⟩),
   ("interactive", ⟨"high", ["TBT"]⟩),
   ("total-blocking-time", ⟨"high", ["TBT"]⟩),
   ("cumulative-layout-shift", ⟨"high", ["CLS"]⟩),
   ("max-potential-fid", ⟨"high", ["TBT"]⟩),
   ("render-blocking-resources", ⟨"high", ["LCP", "FCP"]⟩),
   ("render-blocking-insight", ⟨"high", ["LCP", "FCP"]⟩),
   ("unused-javascript", ⟨"high", ["LCP", "TBT"]⟩),
   ("unused-css-rules", ⟨"high", ["LCP", "FCP"]⟩),
   ("offscreen-images", ⟨"high", ["LCP"]⟩),
   ("unminified-css", ⟨"high", ["LCP", "FCP"]⟩),
   ("unminified-javascript", ⟨"high", ["LCP", "TBT"]⟩),
   ("efficient-animated-content", ⟨"high", ["LCP"]⟩),
   ("preload-lcp-image", ⟨"high", ["LCP"]⟩),
   ("lcp-lazy-loaded", ⟨"high", ["LCP"]⟩),
   ("prioritize-lcp-image", ⟨"high", ["LCP"]⟩),
   ("image-delivery-insight", ⟨"high", ["LCP"]⟩),
   ("modern-image-formats", ⟨"high", ["LCP"]⟩),
   ("uses-optimized-images", ⟨"high", ["LCP"]⟩),
   ("uses-responsive-images", ⟨"high", ["LCP"]⟩),
   ("uses-webp-images", ⟨"high", ["LCP"]⟩),
   ("network-dependency-tree-insight", ⟨"high", ["LCP", "FCP"]⟩),
   ("bootup-time", ⟨"high", ["TBT"]⟩),
   ("mainthread-work-breakdown", ⟨"high", ["TBT"]⟩),
   ("long-tasks", ⟨"high", ["TBT"]⟩),
   ("third-party-summary", ⟨"high", ["TBT", "LCP"]⟩),
   ("third-party-facades", ⟨"high", ["TBT"]⟩),
   ("script-treemap-data", ⟨"high", ["TBT"]⟩),
   ("legacy-javascript", ⟨"high", ["TBT"]⟩),
   ("legacy-javascript-insight", ⟨"high", ["TBT"]⟩),
   ("duplicated-javascript", ⟨"high", ["TBT"]⟩),
   ("duplicated-javascript-insight", ⟨"high", ["TBT"]⟩),
   ("forced-reflow-insight", ⟨"high", ["TBT"]⟩),
   ("unsized-images", ⟨"high", ["CLS"]⟩),
   ("non-composited-animations", ⟨"high", ["CLS"]⟩),
   ("layout-shifts", ⟨"high", ["CLS"]⟩),
   ("layout-shift-elements", ⟨"high", ["CLS"]⟩),
   ("uses-text-compression", ⟨"medium", ["FCP", "LCP"]⟩),
   ("uses-rel-preconnect", ⟨"medium", ["FCP", "LCP"]⟩),
   ("uses-rel-preload", ⟨"medium", ["FCP", "LCP"]⟩),
   ("font-display", ⟨"medium", ["FCP", "CLS"]⟩),
   ("redirects", ⟨"medium", ["FCP", "LCP"]⟩),
   ("dom-size", ⟨"medium", ["TBT", "FCP"]⟩),
   ("document-latency-insight", ⟨"medium", ["FCP"]⟩),
   ("server-response-time", ⟨"medium", ["FCP", "LCP"]⟩),
   ("critical-request-chains", ⟨"medium", ["FCP"]⟩),
   ("user-timings", ⟨"medium", ["SI"]⟩),
   ("total-byte-weight", ⟨"medium", ["FCP", "LCP"]⟩),
   ("lcp-breakdown-insight", ⟨"medium", ["LCP"]⟩),
   ("uses-long-cache-ttl", ⟨"low", []⟩),
   ("cache-insight", ⟨"low", []⟩),
   ("uses-http2", ⟨"low", []⟩),
   ("uses-passive-event-listeners", ⟨"low", []⟩),
   ("no-document-write", ⟨"low", ["FCP"]⟩),
   ("image-aspect-ratio", ⟨"low", ["CLS"]⟩),
   ("image-size-responsive", ⟨"low", []⟩),
   ("deprecations", ⟨"low", []⟩),
   ("errors-in-console", ⟨"low", []⟩),
   ("js-libraries", ⟨"low", []⟩),
   ("inspector-issues", ⟨"low", []⟩),
   ("valid-source-maps", ⟨"low", []⟩),
   ("preload-fonts", ⟨"low", ["FCP"]⟩),
   ("network-rtt", ⟨"low", []⟩),
   ("network-server-latency", ⟨"low", []⟩),
   ("viewport", ⟨"low", []⟩)]

/-- Result of `_get_audit_impact` (a dict with an optional `metricSavings` key). -/
structure ImpactResult where
  impact : String
  affectedMetrics : List String
  metricSavings : Option (List (String × ℚ)) := none
deriving DecidableEq

/-- `_get_audit_impact`: static table, then savings-weight fallback, then low. -/
def get_audit_impact (audit_id : String) (audit_data : AuditData) : ImpactResult :=
  match lookupKey audit_id AUDIT_IMPACT_MAP with
  | some impact_info =>
      { impact := impact_info.impact, affectedMetrics := impact_info.metrics }
  | none =>
      let metric_savings := audit_data.metricSavings
      if metric_savings ≠ [] then
        let affected_metrics := metric_savings.map Prod.fst
        let total_weight : ℕ :=
          (affected_metrics.map (fun m => (lookupKey m METRIC_WEIGHTS).getD 0)).sum
        let impact : String :=
          if 25 ≤ total_weight then "high"
          else if 10 ≤ total_weight then "medium"
          else "low"
        { impact := impact, affectedMetrics := affected_metrics,
          metricSavings := some metric_savings }
      else
        { impact := "low", affectedMetrics := [] }

/-- `_get_audit_category`: first category whose audit refs mention the id. -/
def get_audit_category (audit_id : String) (lighthouse_result : LighthouseResult) :
    String :=
  match lighthouse_result.categories.find? (fun p => p.2.auditRefs.contains audit_id) with
  | some p => p.1
  | none => "unknown"

/-- A `FailedIssue` record as appended by `extract_failed_audits`. -/
structure FailedAudit where
  id : String
  title : String
  description : String
  score : ℚ
  displayValue : String
  category : String
  impact : String
  affectedMetrics : List String
  metricSavings : Option (List (String × ℚ))
deriving DecidableEq

/-- Loop body of `extract_failed_audits` for one `(audit_id, audit_data)` pair:
`none` when one of the three `continue` guards fires. -/
def failedAuditEntry (lighthouse_result : LighthouseResult) (audit_id : String)
    (audit_data : AuditData) : Option FailedAudit :=
  if audit_id ∈ METRIC_AUDITS then none
  else
    match audit_data.score with
    | none => none
    | some score =>
      if score = 1 then none
      else if audit_data.scoreDisplayMode ∈
          [some "manual", some "notApplicable", some "informative"] then none
      else
        let impact_info := get_audit_impact audit_id audit_data
        some
          { id := audit_id
            title := audit_data.title.getD audit_id
            description := audit_data.description.getD ""
            score := score
            displayValue := audit_data.displayValue.getD ""
            category := get_audit_category audit_id lighthouse_result
            impact := impact_info.impact
            affectedMetrics := impact_info.affectedMetrics
            metricSavings := impact_info.metricSavings }

/-- `extract_failed_audits`. -/
def extract_failed_audits (lighthouse_result : LighthouseResult) : List FailedAudit :=
  lighthouse_result.audits.filterMap
    (fun p => failedAuditEntry lighthouse_result p.1 p.2)

/-- Category scores scaled to 0-100 (`extract_scores`). -/
structure Scores where
  performance : ℚ
  seo : ℚ
deriving DecidableEq

/-- `extract_scores`. -/
def extract_scores (lighthouse_result : LighthouseResult) : Scores :=
  let categories := lighthouse_result.categories
  { performance := (((lookupKey "performance" categories).bind (·.score)).getD 0) * 100
    seo := (((lookupKey "seo" categories).bind (·.score)).getD 0) * 100 }

/-- `get_numeric_value` inside `extract_core_web_vitals`. -/
def get_numeric_value (audits : List (String × AuditData)) (audit_id : String) :
    Option ℚ :=
  (lookupKey audit_id audits).bind (·.numericValue)

/-- `extract_core_web_vitals`: the six fixed metric keys, in source order. -/
def extract_core_web_vitals (lighthouse_result : LighthouseResult) :
    List (String × Option ℚ) :=
  let audits := lighthouse_result.audits
  [("lcp", get_numeric_value audits "largest-contentful-paint"),
   ("fid", get_numeric_value audits "max-potential-fid"),
   ("cls", get_numeric_value audits "cumulative-layout-shift"),
   ("fcp", get_numeric_value audits "first-contentful-paint"),
   ("tbt", get_numeric_value audits "total-blocking-time"),
   ("si", get_numeric_value audits "speed-index")]

/-- Site metadata (`site_info` dict from the roster). -/
structure SiteInfo where
  id : String := ""
  nome : String := ""
  slug : String := ""
  marca : String := ""
  dominio : String := ""
  conta : String := ""
  temas : List String := []
deriving DecidableEq

/-- One element of `raw_results`: site metadata plus an optional payload. -/
structure RawResult where
  site_info : SiteInfo
  lighthouse : Option LighthouseResult := none
  error : Bool := false
deriving DecidableEq

/-- A simplified issue reference stored per site (`site_entry['issues']`). -/
structure SiteIssue where
  id : String
  title : String
  score : ℚ
deriving DecidableEq

/-- One entry of `site_data` / `by_site`. -/
structure SiteEntry where
  site_info : SiteInfo
  scores : Option Scores
  core_web_vitals : Option (List (String × Option ℚ))
  issues : List SiteIssue
  error : Bool
deriving DecidableEq

/-- Value type of the `issue_counts` defaultdict. -/
structure IssueData where
  count : ℕ
  title : String
  description : String
  category : String
  sites : List String
  temas : List String
  impact : String
  affectedMetrics : List String
deriving DecidableEq

/-- Default value manufactured by the `issue_counts` defaultdict. -/
def defaultIssueData : IssueData :=
  { count := 0, title := "", description := "", category := "", sites := [],
    temas := [], impact := "low", affectedMetrics := [] }

/-- Value type of the `theme_data` defaultdict. -/
structure ThemeData where
  total_performance : ℚ
  total_seo : ℚ
  count : ℕ
  sites : List String
deriving DecidableEq

/-- Default value manufactured by the `theme_data` defaultdict. -/
def defaultThemeData : ThemeData :=
  { total_performance := 0, total_seo := 0, count := 0, sites := [] }

/-- The `issue_counts[issue_id]` update block for one failed audit. -/
def recordIssue (nome : String) (site_temas : List String)
    (counts : List (String × IssueData)) (audit : FailedAudit) :
    List (String × IssueData) :=
  upsert counts audit.id defaultIssueData (fun d =>
    { count := d.count + 1
      title := audit.title
      description := audit.description
      category := audit.category
      sites := d.sites ++ [nome]
      temas := site_temas.foldl insertUniq d.temas
      impact := audit.impact
      affectedMetrics := audit.affectedMetrics })

/-- The `cwv_totals[metric]` update for one provided metric value. -/
def recordCwv (totals : List (String × (ℚ × ℕ))) (metric : String) (value : ℚ) :
    List (String × (ℚ × ℕ)) :=
  upsert totals metric (0, 0) (fun p => (p.1 + value, p.2 + 1))

/-- The mutable accumulator of the `analyze_results` loop. -/
structure AnalyzeState where
  issue_counts : List (String × IssueData)
  site_data : List SiteEntry
  theme_data : List (String × ThemeData)
  total_performance : ℚ
  total_seo : ℚ
  cwv_totals : List (String × (ℚ × ℕ))
  successful_count : ℕ
  all_themes : List String
deriving DecidableEq

/-- Accumulator at the top of `analyze_results`. -/
def initState : AnalyzeState :=
  { issue_counts := [], site_data := [], theme_data := [], total_performance := 0,
    total_seo := 0, cwv_totals := [], successful_count := 0, all_themes := [] }

/-- The by-site entry emitted for an error site. -/
def errorSiteEntry (site_info : SiteInfo) : SiteEntry :=
  { site_info := site_info, scores := none, core_web_vitals := none, issues := [],
    error := true }

/-- One iteration of the `for result in raw_results` loop of `analyze_results`. -/
def processSite (st : AnalyzeState) (result : RawResult) : AnalyzeState :=
  let site_info := result.site_info
  let site_temas := site_info.temas
  let st0 := { st with all_themes := site_temas.foldl insertUniq st.all_themes }
  match result.lighthouse with
  | none => { st0 with site_data := st0.site_data ++ [errorSiteEntry site_info] }
  | some lighthouse =>
    if result.error then
      { st0 with site_data := st0.site_data ++ [errorSiteEntry site_info] }
    else
      let scores := extract_scores lighthouse
      let cwv := extract_core_web_vitals lighthouse
      let failed_audits := extract_failed_audits lighthouse
      let site_entry : SiteEntry :=
        { site_info := site_info, scores := some scores, core_web_vitals := some cwv
          issues := failed_audits.map (fun a => ⟨a.id, a.title, a.score⟩)
          error := false }
      { st0 with
        site_data := st0.site_data ++ [site_entry]
        total_performance := st0.total_performance + scores.performance
        total_seo := st0.total_seo + scores.seo
        successful_count := st0.successful_count + 1
        cwv_totals := cwv.foldl
          (fun t p => match p.2 with
            | some v => recordCwv t p.1 v
            | none => t) st0.cwv_totals
        theme_data := site_temas.foldl
          (fun td tema => upsert td tema defaultThemeData (fun d =>
            { total_performance := d.total_performance + scores.performance
              total_seo := d.total_seo + scores.seo
              count := d.count + 1
              sites := d.sites ++ [site_info.nome] })) st0.theme_data
        issue_counts := failed_audits.foldl
          (recordIssue site_info.nome site_temas) st0.issue_counts }

/-- One tiered issue record (`issue_entry` dict). -/
structure IssueEntry where
  id : String
  title : String
  description : String
  category : String
  count : ℕ
  percentage : ℚ
  sites : List String
  temas : List String
  impact : String
  affectedMetrics : List String
deriving DecidableEq

/-- The `issue_entry` dict built for one `issue_counts` entry. -/
def issueEntryOf (total_sites : ℚ) (p : String × IssueData) : IssueEntry :=
  { id := p.1, title := p.2.title, description := p.2.description,
    category := p.2.category, count := p.2.count,
    percentage := pyRound 1 (((p.2.count : ℚ) / total_sites) * 100),
    sites := p.2.sites, temas := p.2.temas, impact := p.2.impact,
    affectedMetrics := p.2.affectedMetrics }

/-- The `for issue_id, data in issue_counts.items()` classification loop:
each entry goes to the critical / frequent / occasional list by its
(unrounded) percentage. -/
def classifyIssues (total_sites : ℚ) :
    List (String × IssueData) → List IssueEntry × List IssueEntry × List IssueEntry
  | [] => ([], [], [])
  | p :: rest =>
    let t := classifyIssues total_sites rest
    let percentage : ℚ := ((p.2.count : ℚ) / total_sites) * 100
    let e := issueEntryOf total_sites p
    if 70 < percentage then (e :: t.1, t.2.1, t.2.2)
    else if 30 ≤ percentage then (t.1, e :: t.2.1, t.2.2)
    else (t.1, t.2.1, e :: t.2.2)

/-- Comparator of the three `list.sort(key=count, reverse=True)` calls. -/
def countDescBool (a b : IssueEntry) : Bool := decide (b.count ≤ a.count)

/-- The `summary` dict of the analysis. -/
structure AnalysisSummary where
  avg_performance : ℚ
  avg_seo : ℚ
  core_web_vitals : List (String × Option ℚ)
  total_sites : ℕ
  successful_audits : ℕ
deriving DecidableEq

/-- The `common_issues` dict of the analysis. -/
structure CommonIssues where
  critical : List IssueEntry
  frequent : List IssueEntry
  occasional : List IssueEntry
deriving DecidableEq

/-- One `by_theme` entry. -/
structure ThemeEntry where
  avg_performance : ℚ
  avg_seo : ℚ
  sites_count : ℕ
  sites : List String
deriving DecidableEq

/-- Return value of `analyze_results`. -/
structure Analysis where
  summary : AnalysisSummary
  common_issues : CommonIssues
  by_site : List SiteEntry
  by_theme : List (String × ThemeEntry)
  themes : List String
deriving DecidableEq

/-- `analyze_results`. -/
def analyze_results (raw_results : List RawResult) : Analysis :=
  let st := raw_results.foldl processSite initState
  let total_sites : ℕ := if st.successful_count = 0 then 1 else st.successful_count
  let tiers := classifyIssues (total_sites : ℚ) st.issue_counts
  let critical := tiers.1.mergeSort countDescBool
  let frequent := tiers.2.1.mergeSort countDescBool
  let occasional := tiers.2.2.mergeSort countDescBool
  let avg_performance : ℚ :=
    if st.successful_count ≠ 0 then st.total_performance / st.successful_count else 0
  let avg_seo : ℚ :=
    if st.successful_count ≠ 0 then st.total_seo / st.successful_count else 0
  let avg_cwv : List (String × Option ℚ) :=
    st.cwv_totals.map (fun p =>
      (p.1, if 0 < p.2.2 then some (pyRound 2 (p.2.1 / (p.2.2 : ℚ))) else none))
  let by_theme : List (String × ThemeEntry) :=
    st.theme_data.filterMap (fun p =>
      if 0 < p.2.count then
        some (p.1,
          { avg_performance := pyRound 1 (p.2.total_performance / (p.2.count : ℚ))
            avg_seo := pyRound 1 (p.2.total_seo / (p.2.count : ℚ))
            sites_count := p.2.count
            sites := p.2.sites })
      else none)
  { summary :=
      { avg_performance := pyRound 1 avg_performance
        avg_seo := pyRound 1 avg_seo
        core_web_vitals := avg_cwv
        total_sites := raw_results.length
        successful_audits := st.successful_count }
    common_issues :=
      { critical := critical, frequent := frequent, occasional := occasional }
    by_site := st.site_data
    by_theme := by_theme
    themes := st.all_themes.mergeSort (fun a b => decide (a ≤ b)) }

/-- A simplified issue record (`_simplify_issues` element: no `sites` field). -/
structure SimplifiedIssue where
  id : String
  title : String
  description : String
  category : String
  count : ℕ
  percentage : ℚ
  temas : List String
deriving DecidableEq

/-- `_simplify_issues` from `report_generator.py`. -/
def simplify_issues (issues : List IssueEntry) : List SimplifiedIssue :=
  issues.map (fun issue =>
    { id := issue.id, title := issue.title, description := issue.description,
      category := issue.category, count := issue.count,
      percentage := issue.percentage, temas := issue.temas })

/-- One `_prepare_sites_data` element. -/
structure PreparedSite where
  id : String
  nome : String
  slug : String
  marca : String
  dominio : String
  conta : String
  temas : List String
  scores : Option Scores
  core_web_vitals : Option (List (String × Option ℚ))
  issues_count : ℕ
  issues : List SiteIssue
  error : Bool
deriving DecidableEq

/-- `_prepare_sites_data` from `report_generator.py`. -/
def prepare_sites_data (sites : List SiteEntry) : List PreparedSite :=
  sites.map (fun site =>
    { id := site.site_info.id, nome := site.site_info.nome,
      slug := site.site_info.slug, marca := site.site_info.marca,
      dominio := site.site_info.dominio, conta := site.site_info.conta,
      temas := site.site_info.temas, scores := site.scores,
      core_web_vitals := site.core_web_vitals,
      issues_count := site.issues.length, issues := site.issues,
      error := site.error })

/-- The `metadata` dict of the report. -/
structure ReportMetadata where
  generated_at : String
  total_sites : ℕ
  successful_audits : ℕ
  version : String
deriving DecidableEq

/-- The `summary` dict of the report. -/
structure ReportSummary where
  avg_performance : ℚ
  avg_seo : ℚ
  core_web_vitals : List (String × Option ℚ)
deriving DecidableEq

/-- The `common_issues` dict of the report (simplified records). -/
structure SimplifiedCommonIssues where
  critical : List SimplifiedIssue
  frequent : List SimplifiedIssue
  occasional : List SimplifiedIssue
deriving DecidableEq

/-- Return value of `generate_report`. -/
structure Report where
  metadata : ReportMetadata
  summary : ReportSummary
  common_issues : SimplifiedCommonIssues
  by_site : List PreparedSite
  by_theme : List (String × ThemeEntry)
  themes : List String
deriving DecidableEq

/-- `generate_report`; `now` stands for `datetime.now().isoformat()`, the only
impure input, passed explicitly.  `raw_results` is accepted (as in the source
signature) but unused by the body. -/
def generate_report (raw_results : List RawResult) (now : String)
    (analysis : Analysis) : Report :=
  { metadata :=
      { generated_at := now
        total_sites := analysis.summary.total_sites
        successful_audits := analysis.summary.successful_audits
        version := "1.0.0" }
    summary :=
      { avg_performance := analysis.summary.avg_performance
        avg_seo := analysis.summary.avg_seo
        core_web_vitals := analysis.summary.core_web_vitals }
    common_issues :=
      { critical := simplify_issues analysis.common_issues.critical
        frequent := simplify_issues analysis.common_issues.frequent
        occasional := simplify_issues analysis.common_issues.occasional }
    by_site := prepare_sites_data analysis.by_site
    by_theme := analysis.by_theme
    themes := analysis.themes }

/-! ### Spec-side observables -/

/-- A site result that enters the aggregation (has a payload, no error flag). -/
def isSuccess (r : RawResult) : Bool := r.lighthouse.isSome && !r.error

/-- Number of successfully audited sites. -/
def succCount (rs : List RawResult) : ℕ := rs.countP isSuccess

/-- The failed audits a site contributes (none for error sites). -/
def siteFailedAudits (r : RawResult) : List FailedAudit :=
  match r.lighthouse with
  | some lh => if r.error then [] else extract_failed_audits lh
  | none => []

/-- The Core Web Vitals assoc list a site contributes (empty for error sites). -/
def siteCwv (r : RawResult) : List (String × Option ℚ) :=
  match r.lighthouse with
  | some lh => if r.error then [] else extract_core_web_vitals lh
  | none => []

/-- All issue ids observed, in input-site order and payload order. -/
def observedIssueIds (rs : List RawResult) : List String :=
  (rs.map (fun r => (siteFailedAudits r).map (·.id))).flatten

/-- Metric values actually provided by successful sites, in input order. -/
def providedVals (metric : String) (rs : List RawResult) : List ℚ :=
  rs.filterMap (fun r => (lookupKey metric (siteCwv r)).join)

/-- First-seen dedup of a list of ids. -/
def firstSeen (l : List String) : List String := l.foldl insertUniq []

/-- Occurrence count an issue id has in the accumulator (0 when absent). -/
def getCount (l : List (String × IssueData)) (k : String) : ℕ :=
  ((lookupKey k l).getD defaultIssueData).count

/-- Accumulator state after the whole site loop. -/
def finalState (rs : List RawResult) : AnalyzeState := rs.foldl processSite initState

/-- The `total_sites` denominator (`successful_count or 1`). -/
def totalSitesNat (rs : List RawResult) : ℕ :=
  if (finalState rs).successful_count = 0 then 1 else (finalState rs).successful_count

/-! ### Association-list lemmas -/

theorem lookupKey_upsert {β : Type} (l : List (String × β)) (k k' : String)
    (d : β) (f : β → β) :
    lookupKey k' (upsert l k d f) =
      if k' = k then some (f ((lookupKey k l).getD d)) else lookupKey k' l := by
  induction l with
  | nil =>
    by_cases h : k' = k
    · subst h
      simp [upsert, lookupKey]
    · simp only [upsert, lookupKey]
      rw [if_neg (fun hh : k = k' => h hh.symm), if_neg h]
  | cons p rest ih =>
    by_cases h1 : p.1 = k <;> by_cases h2 : k' = k <;>
      simp_all [upsert, lookupKey, eq_comm]

theorem insertUniq_cons (x : String) (l : List String) (k : String) (h : k ≠ x) :
    insertUniq (x :: l) k = x :: insertUniq l k := by
  by_cases hm : k ∈ l <;> simp [insertUniq, hm, h]

theorem mem_insertUniq (l : List String) (x y : String) :
    y ∈ insertUniq l x ↔ y ∈ l ∨ y = x := by
  by_cases hm : x ∈ l
  · simp only [insertUniq, if_pos hm]
    constructor
    · exact fun h => Or.inl h
    · rintro (h | rfl) <;> assumption
  · simp [insertUniq, if_neg hm]

theorem insertUniq_nodup (l : List String) (x : String) (h : l.Nodup) :
    (insertUniq l x).Nodup := by
  by_cases hm : x ∈ l
  · simpa [insertUniq, hm] using h
  · simp only [insertUniq, if_neg hm]
    rw [List.nodup_append]
    refine ⟨h, by simp, ?_⟩
    intro a ha hax
    rw [List.mem_singleton] at hax
    subst hax
    exact hm ha

theorem keys_upsert {β : Type} (l : List (String × β)) (k : String) (d : β)
    (f : β → β) :
    (upsert l k d f).map Prod.fst = insertUniq (l.map Prod.fst) k := by
  induction l with
  | nil => simp [upsert, insertUniq]
  | cons p rest ih =>
    by_cases h : p.1 = k
    · subst h
      simp [upsert, insertUniq]
    · rw [show upsert (p :: rest) k d f = p :: upsert rest k d f by simp [upsert, h],
        List.map_cons, ih, List.map_cons,
        insertUniq_cons p.1 (rest.map Prod.fst) k (fun hk => h hk.symm)]

theorem mem_lookupKey {β : Type} (l : List (String × β)) (k : String) (v : β) :
    (l.map Prod.fst).Nodup → (k, v) ∈ l → lookupKey k l = some v := by
  induction l with
  | nil => intro _ h; simp at h
  | cons p rest ih =>
    intro hnd h
    rcases List.mem_cons.1 h with h1 | h1
    · subst h1
      simp [lookupKey]
    · rw [List.map_cons, List.nodup_cons] at hnd
      have hk : p.1 ≠ k := by
        intro hek
        exact hnd.1 (List.mem_map.2 ⟨(k, v), h1, hek.symm⟩)
      simp only [lookupKey, if_neg hk]
      exact ih hnd.2 h1

theorem lookupKey_eq_none {β : Type} (l : List (String × β)) (k : String) :
    lookupKey k l = none ↔ k ∉ l.map Prod.fst := by
  induction l with
  | nil => simp [lookupKey]
  | cons p rest ih =>
    by_cases h : p.1 = k
    · simp [lookupKey, h]
    · simp only [lookupKey, if_neg h, ih, List.map_cons, List.mem_cons]
      constructor
      · intro hn hor
        rcases hor with h1 | h1
        · exact h h1.symm
        · exact hn h1
      · intro hn h1
        exact hn (Or.inr h1)

theorem lookupKey_map_snd {β γ : Type} (l : List (String × β)) (g : β → γ)
    (k : String) :
    lookupKey k (l.map (fun p => (p.1, g p.2))) = (lookupKey k l).map g := by
  induction l with
  | nil => simp [lookupKey]
  | cons p rest ih =>
    by_cases h : p.1 = k <;> simp [lookupKey, h, ih]

theorem mem_foldl_insertUniq (l : List String) (init : List String) (x : String) :
    x ∈ l.foldl insertUniq init ↔ x ∈ init ∨ x ∈ l := by
  induction l generalizing init with
  | nil => simp
  | cons a rest ih =>
    rw [List.foldl_cons, ih]
    simp [mem_insertUniq]
    tauto

theorem foldl_insertUniq_nodup (l : List String) (init : List String)
    (h : init.Nodup) : (l.foldl insertUniq init).Nodup := by
  induction l generalizing init with
  | nil => simpa
  | cons a rest ih => exact ih _ (insertUniq_nodup _ _ h)

/-! ### Step lemmas for the site loop -/

theorem processSite_error (st : AnalyzeState) (r : RawResult)
    (h : r.lighthouse = none ∨ r.error = true) :
    processSite st r =
      { st with
        site_data := st.site_data ++ [errorSiteEntry r.site_info]
        all_themes := r.site_info.temas.foldl insertUniq st.all_themes } := by
  rcases h with h | h
  · simp [processSite, h]
  · cases hl : r.lighthouse <;> simp [processSite, h, hl]

theorem processSite_successful_count (st : AnalyzeState) (r : RawResult) :
    (processSite st r).successful_count =
      st.successful_count + (if isSuccess r then 1 else 0) := by
  cases hl : r.lighthouse <;> cases he : r.error <;>
    simp [processSite, isSuccess, hl, he]

theorem processSite_issue_counts (st : AnalyzeState) (r : RawResult) :
    (processSite st r).issue_counts =
      (siteFailedAudits r).foldl (recordIssue r.site_info.nome r.site_info.temas)
        st.issue_counts := by
  cases hl : r.lighthouse <;> cases he : r.error <;>
    simp [processSite, siteFailedAudits, hl, he]

theorem processSite_cwv_totals (st : AnalyzeState) (r : RawResult) :
    (processSite st r).cwv_totals =
      (siteCwv r).foldl
        (fun t p => match p.2 with
          | some v => recordCwv t p.1 v
          | none => t) st.cwv_totals := by
  cases hl : r.lighthouse <;> cases he : r.error <;>
    simp [processSite, siteCwv, hl, he]

theorem foldl_successful_count (rs : List RawResult) (st : AnalyzeState) :
    (rs.foldl processSite st).successful_count =
      st.successful_count + succCount rs := by
  induction rs generalizing st with
  | nil => simp [succCount]
  | cons r rest ih =>
    rw [List.foldl_cons, ih, processSite_successful_count]
    simp only [succCount, List.countP_cons]
    by_cases h : isSuccess r <;> simp [h] <;> omega

theorem finalState_successful_count (rs : List RawResult) :
    (finalState rs).successful_count = succCount rs := by
  rw [finalState, foldl_successful_count]
  simp [initState]

/-! ### Issue-count accumulator lemmas -/

theorem keys_recordIssue (nome : String) (temas : List String)
    (ic : List (String × IssueData)) (a : FailedAudit) :
    (recordIssue nome temas ic a).map Prod.fst =
      insertUniq (ic.map Prod.fst) a.id :=
  keys_upsert ..

theorem keys_foldl_recordIssue (nome : String) (temas : List String)
    (fas : List FailedAudit) (ic : List (String × IssueData)) :
    ((fas.foldl (recordIssue nome temas) ic).map Prod.fst) =
      (fas.map (·.id)).foldl insertUniq (ic.map Prod.fst) := by
  induction fas generalizing ic with
  | nil => simp
  | cons a rest ih => rw [List.foldl_cons, ih, keys_recordIssue, List.map_cons,
      List.foldl_cons]

theorem keys_foldl_processSite (rs : List RawResult) (st : AnalyzeState) :
    ((rs.foldl processSite st).issue_counts).map Prod.fst =
      (observedIssueIds rs).foldl insertUniq (st.issue_counts.map Prod.fst) := by
  induction rs generalizing st with
  | nil => simp [observedIssueIds]
  | cons r rest ih =>
    rw [List.foldl_cons, ih, processSite_issue_counts, keys_foldl_recordIssue]
    simp only [observedIssueIds, List.map_cons, List.flatten_cons]
    rw [List.foldl_append]

theorem finalState_issue_keys (rs : List RawResult) :
    ((finalState rs).issue_counts).map Prod.fst =
      firstSeen (observedIssueIds rs) := by
  rw [finalState, keys_foldl_processSite]
  simp [initState, firstSeen]

theorem finalState_issue_keys_nodup (rs : List RawResult) :
    (((finalState rs).issue_counts).map Prod.fst).Nodup := by
  rw [finalState_issue_keys, firstSeen]
  exact foldl_insertUniq_nodup _ _ List.nodup_nil

theorem mem_finalState_issue_keys (rs : List RawResult) (k : String) :
    k ∈ ((finalState rs).issue_counts).map Prod.fst ↔ k ∈ observedIssueIds rs := by
  rw [finalState_issue_keys, firstSeen, mem_foldl_insertUniq]
  simp

theorem getCount_recordIssue (nome : String) (temas : List String)
    (ic : List (String × IssueData)) (a : FailedAudit) (k : String) :
    getCount (recordIssue nome temas ic a) k =
      getCount ic k + (if k = a.id then 1 else 0) := by
  unfold getCount recordIssue
  rw [lookupKey_upsert]
  by_cases h : k = a.id
  · subst h
    cases hl : lookupKey a.id ic <;> simp [hl, defaultIssueData]
  · simp [h]

theorem getCount_foldl_recordIssue (nome : String) (temas : List String)
    (fas : List FailedAudit) (ic : List (String × IssueData)) (k : String)
    (h : (fas.map (·.id)).Nodup) :
    getCount (fas.foldl (recordIssue nome temas) ic) k =
      getCount ic k + (if k ∈ fas.map (·.id) then 1 else 0) := by
  induction fas generalizing ic with
  | nil => simp
  | cons a rest ih =>
    rw [List.map_cons, List.nodup_cons] at h
    rw [List.foldl_cons, ih _ h.2, getCount_recordIssue]
    by_cases hk : k = a.id
    · subst hk
      simp [h.1]
    · simp [hk]

/-! ### Failed-audit id lemmas -/

theorem failedAuditEntry_id (lh : LighthouseResult) (k : String) (d : AuditData)
    (fa : FailedAudit) (h : failedAuditEntry lh k d = some fa) : fa.id = k := by
  unfold failedAuditEntry at h
  split at h
  · exact absurd h (by simp)
  · split at h
    · exact absurd h (by simp)
    · split at h
      · exact absurd h (by simp)
      · split at h
        · exact absurd h (by simp)
        · cases h
          rfl

theorem extract_failed_audits_ids_sublist_aux (lh : LighthouseResult)
    (l : List (String × AuditData)) :
    List.Sublist ((l.filterMap (fun p => failedAuditEntry lh p.1 p.2)).map (·.id))
      (l.map Prod.fst) := by
  induction l with
  | nil => simp
  | cons p rest ih =>
    rw [List.filterMap_cons]
    cases h : failedAuditEntry lh p.1 p.2 with
    | none => exact ih.cons p.1
    | some fa =>
      rw [List.map_cons, List.map_cons, failedAuditEntry_id lh p.1 p.2 fa h]
      exact ih.cons₂ p.1

theorem extract_failed_audits_ids_sublist (lh : LighthouseResult) :
    List.Sublist ((extract_failed_audits lh).map (·.id)) (lh.audits.map Prod.fst) :=
  extract_failed_audits_ids_sublist_aux lh lh.audits

theorem extract_failed_audits_ids_nodup (lh : LighthouseResult)
    (h : (lh.audits.map Prod.fst).Nodup) :
    ((extract_failed_audits lh).map (·.id)).Nodup :=
  h.sublist (extract_failed_audits_ids_sublist lh)

/-! ### Classification lemmas -/

theorem issueEntryOf_count (T : ℚ) (p : String × IssueData) :
    (issueEntryOf T p).count = p.2.count := rfl

theorem issueEntryOf_id (T : ℚ) (p : String × IssueData) :
    (issueEntryOf T p).id = p.1 := rfl

theorem classify_critical_pct (T : ℚ) (l : List (String × IssueData)) :
    ∀ e ∈ (classifyIssues T l).1, 70 < ((e.count : ℚ) / T) * 100 := by
  induction l with
  | nil => simp [classifyIssues]
  | cons p rest ih =>
    intro e he
    simp only [classifyIssues] at he
    split_ifs at he with h1 h2
    · rcases List.mem_cons.1 he with rfl | he
      · simpa [issueEntryOf] using h1
      · exact ih e he
    · exact ih e he
    · exact ih e he

theorem classify_frequent_pct (T : ℚ) (l : List (String × IssueData)) :
    ∀ e ∈ (classifyIssues T l).2.1,
      30 ≤ ((e.count : ℚ) / T) * 100 ∧ ((e.count : ℚ) / T) * 100 ≤ 70 := by
  induction l with
  | nil => simp [classifyIssues]
  | cons p rest ih =>
    intro e he
    simp only [classifyIssues] at he
    split_ifs at he with h1 h2
    · exact ih e he
    · rcases List.mem_cons.1 he with rfl | he
      · exact ⟨by simpa [issueEntryOf] using h2,
          by simpa [issueEntryOf] using le_of_not_lt h1⟩
      · exact ih e he
    · exact ih e he

theorem classify_occasional_pct (T : ℚ) (l : List (String × IssueData)) :
    ∀ e ∈ (classifyIssues T l).2.2, ((e.count : ℚ) / T) * 100 < 30 := by
  induction l with
  | nil => simp [classifyIssues]
  | cons p rest ih =>
    intro e he
    simp only [classifyIssues] at he
    split_ifs at he with h1 h2
    · exact ih e he
    · exact ih e he
    · rcases List.mem_cons.1 he with rfl | he
      · simpa [issueEntryOf] using lt_of_not_le h2
      · exact ih e he

theorem classify_perm (T : ℚ) (l : List (String × IssueData)) :
    List.Perm
      ((classifyIssues T l).1 ++
        ((classifyIssues T l).2.1 ++ (classifyIssues T l).2.2))
      (l.map (issueEntryOf T)) := by
  induction l with
  | nil => simp [classifyIssues]
  | cons p rest ih =>
    simp only [classifyIssues, List.map_cons]
    split_ifs with h1 h2
    · rw [List.cons_append]
      exact ih.cons (issueEntryOf T p)
    · exact List.Perm.trans List.perm_middle (ih.cons (issueEntryOf T p))
    · rw [show (classifyIssues T rest).1 ++
          ((classifyIssues T rest).2.1 ++
            issueEntryOf T p :: (classifyIssues T rest).2.2)
          = ((classifyIssues T rest).1 ++ (classifyIssues T rest).2.1) ++
            issueEntryOf T p :: (classifyIssues T rest).2.2 from
          (List.append_assoc _ _ _).symm]
      refine List.Perm.trans List.perm_middle ?_
      rw [List.append_assoc]
      exact ih.cons _

theorem classify_critical_sublist (T : ℚ) (l : List (String × IssueData)) :
    List.Sublist (classifyIssues T l).1 (l.map (issueEntryOf T)) := by
  induction l with
  | nil => simp [classifyIssues]
  | cons p rest ih =>
    simp only [classifyIssues, List.map_cons]
    split_ifs with h1 h2
    · exact ih.cons₂ _
    · exact ih.cons _
    · exact ih.cons _

theorem classify_frequent_sublist (T : ℚ) (l : List (String × IssueData)) :
    List.Sublist (classifyIssues T l).2.1 (l.map (issueEntryOf T)) := by
  induction l with
  | nil => simp [classifyIssues]
  | cons p rest ih =>
    simp only [classifyIssues, List.map_cons]
    split_ifs with h1 h2
    · exact ih.cons _
    · exact ih.cons₂ _
    · exact ih.cons _

theorem classify_occasional_sublist (T : ℚ) (l : List (String × IssueData)) :
    List.Sublist (classifyIssues T l).2.2 (l.map (issueEntryOf T)) := by
  induction l with
  | nil => simp [classifyIssues]
  | cons p rest ih =>
    simp only [classifyIssues, List.map_cons]
    split_ifs with h1 h2
    · exact ih.cons _
    · exact ih.cons _
    · exact ih.cons₂ _

/-! ### Sorting lemmas -/

theorem countDescBool_trans : ∀ (a b c : IssueEntry),
    countDescBool a b → countDescBool b c → countDescBool a c := by
  intro a b c h1 h2
  simp only [countDescBool, decide_eq_true_eq] at h1 h2 ⊢
  omega

theorem countDescBool_total : ∀ (a b : IssueEntry),
    countDescBool a b || countDescBool b a := by
  intro a b
  simp only [countDescBool, Bool.or_eq_true, decide_eq_true_eq]
  omega

theorem mergeSort_count_sorted (l : List IssueEntry) :
    (l.mergeSort countDescBool).Pairwise (fun a b => b.count ≤ a.count) := by
  have h := List.sorted_mergeSort countDescBool_trans countDescBool_total l
  exact h.imp (fun hab => by simpa [countDescBool] using hab)

theorem filter_mergeSort_count (l : List IssueEntry) (n : ℕ) :
    (l.mergeSort countDescBool).filter (fun e => e.count == n) =
      l.filter (fun e => e.count == n) := by
  have hpw : (l.filter (fun e => e.count == n)).Pairwise
      (fun a b => countDescBool a b = true) := by
    apply List.pairwise_of_forall_mem_list
    intro a ha b hb
    rw [List.mem_filter] at ha hb
    have ha2 : a.count = n := by simpa using ha.2
    have hb2 : b.count = n := by simpa using hb.2
    simp [countDescBool, ha2, hb2]
  have hsub : List.Sublist (l.filter (fun e => e.count == n)) l :=
    List.filter_sublist l
  have h1 := List.sublist_mergeSort countDescBool_trans countDescBool_total hpw hsub
  have h2 := h1.filter (fun e => e.count == n)
  rw [List.filter_filter] at h2
  simp only [Bool.and_self] at h2
  have h3 : ((l.mergeSort countDescBool).filter (fun e => e.count == n)).length =
      (l.filter (fun e => e.count == n)).length :=
    ((List.mergeSort_perm l countDescBool).filter _).length_eq
  exact (h2.eq_of_length h3.symm).symm

/-! ### Accessor equations for `analyze_results` -/

theorem analyze_critical_def (rs : List RawResult) :
    (analyze_results rs).common_issues.critical =
      ((classifyIssues ((totalSitesNat rs : ℕ) : ℚ)
        (finalState rs).issue_counts).1).mergeSort countDescBool := rfl

theorem analyze_frequent_def (rs : List RawResult) :
    (analyze_results rs).common_issues.frequent =
      ((classifyIssues ((totalSitesNat rs : ℕ) : ℚ)
        (finalState rs).issue_counts).2.1).mergeSort countDescBool := rfl

theorem analyze_occasional_def (rs : List RawResult) :
    (analyze_results rs).common_issues.occasional =
      ((classifyIssues ((totalSitesNat rs : ℕ) : ℚ)
        (finalState rs).issue_counts).2.2).mergeSort countDescBool := rfl

theorem analyze_successful_audits_def (rs : List RawResult) :
    (analyze_results rs).summary.successful_audits =
      (finalState rs).successful_count := rfl

theorem analyze_total_sites_def (rs : List RawResult) :
    (analyze_results rs).summary.total_sites = rs.length := rfl

theorem analyze_cwv_def (rs : List RawResult) :
    (analyze_results rs).summary.core_web_vitals =
      (finalState rs).cwv_totals.map (fun p =>
        (p.1, if 0 < p.2.2 then some (pyRound 2 (p.2.1 / (p.2.2 : ℚ))) else none)) :=
  rfl

theorem analyze_avg_performance_def (rs : List RawResult) :
    (analyze_results rs).summary.avg_performance =
      pyRound 1 (if (finalState rs).successful_count ≠ 0 then
        (finalState rs).total_performance / ((finalState rs).successful_count : ℚ)
      else 0) := rfl

theorem analyze_avg_seo_def (rs : List RawResult) :
    (analyze_results rs).summary.avg_seo =
      pyRound 1 (if (finalState rs).successful_count ≠ 0 then
        (finalState rs).total_seo / ((finalState rs).successful_count : ℚ)
      else 0) := rfl

theorem analyze_themes_def (rs : List RawResult) :
    (analyze_results rs).themes =
      (finalState rs).all_themes.mergeSort (fun a b => decide (a ≤ b)) := rfl

theorem analyze_by_site_def (rs : List RawResult) :
    (analyze_results rs).by_site = (finalState rs).site_data := rfl

/-! ### Spec-side weight function (the weights named by the spec) -/

/-- The fixed weights TBT 30, LCP 25, CLS 25, FCP 10, SI 10; unknown names
weigh 0. -/
def specMetricWeight (m : String) : ℕ :=
  if m = "TBT" then 30
  else if m = "LCP" then 25
  else if m = "CLS" then 25
  else if m = "FCP" then 10
  else if m = "SI" then 10
  else 0

theorem lookup_METRIC_WEIGHTS (m : String) :
    (lookupKey m METRIC_WEIGHTS).getD 0 = specMetricWeight m := by
  by_cases h1 : m = "TBT"
  · subst h1; decide
  by_cases h2 : m = "LCP"
  · subst h2; decide
  by_cases h3 : m = "CLS"
  · subst h3; decide
  by_cases h4 : m = "FCP"
  · subst h4; decide
  by_cases h5 : m = "SI"
  · subst h5; decide
  simp [METRIC_WEIGHTS, lookupKey, specMetricWeight, h1, h2, h3, h4, h5, eq_comm]

/-- C5: impact classification follows the three-tier fallback exactly: static
table hit returns the table's tier and metrics; otherwise a non-empty savings
map gives the weight-sum rule (≥25 high, ≥10 medium, else low) over the
metrics present; otherwise low with no affected metrics. -/
theorem c5_impact_classification (audit_id : String) (audit_data : AuditData) :
    (∀ info, lookupKey audit_id AUDIT_IMPACT_MAP = some info →
      get_audit_impact audit_id audit_data =
        { impact := info.impact, affectedMetrics := info.metrics,
          metricSavings := none }) ∧
    (lookupKey audit_id AUDIT_IMPACT_MAP = none →
      audit_data.metricSavings ≠ [] →
      get_audit_impact audit_id audit_data =
        { impact :=
            if 25 ≤ ((audit_data.metricSavings.map Prod.fst).map specMetricWeight).sum
            then "high"
            else if 10 ≤ ((audit_data.metricSavings.map Prod.fst).map
                specMetricWeight).sum
            then "medium"
            else "low"
          affectedMetrics := audit_data.metricSavings.map Prod.fst
          metricSavings := some audit_data.metricSavings }) ∧
    (lookupKey audit_id AUDIT_IMPACT_MAP = none →
      audit_data.metricSavings = [] →
      get_audit_impact audit_id audit_data =
        { impact := "low", affectedMetrics := [], metricSavings := none }) := by
  refine ⟨?_, ?_, ?_⟩
  · intro info h
    simp [get_audit_impact, h]
  · intro h hne
    have hw : (audit_data.metricSavings.map Prod.fst).map
          (fun m => (lookupKey m METRIC_WEIGHTS).getD 0) =
        (audit_data.metricSavings.map Prod.fst).map specMetricWeight := by
      simp only [lookup_METRIC_WEIGHTS]
    simp only [get_audit_impact, h, if_neg (by simpa using hne)]
    rw [if_pos hne, hw]
  · intro h he
    simp [get_audit_impact, h, he]

/-- C5 witness: the theorem applied to a table audit and to a savings-only
audit. -/
theorem c5_impact_classification_witness :
    get_audit_impact "unused-javascript" {} =
      { impact := "high", affectedMetrics := ["LCP", "TBT"],
        metricSavings := none } ∧
    get_audit_impact "custom-unknown-audit" { metricSavings := [("TBT", 120)] } =
      { impact := "high", affectedMetrics := ["TBT"],
        metricSavings := some [("TBT", 120)] } := by
  constructor
  · exact (c5_impact_classification "unused-javascript" {}).1
      ⟨"high", ["LCP", "TBT"]⟩ (by decide)
  · have h := (c5_impact_classification "custom-unknown-audit"
      { metricSavings := [("TBT", 120)] }).2.1 (by decide) (by decide)
    simpa using h

/-- C9: the report delivered to the serializer carries, in each of the three
common-issues tiers, simplified records produced by `simplify_issues`, and
`simplify_issues` does not depend on the per-issue contributor-site list. -/
theorem c9_simplified_issues (rrs : List RawResult) (now : String)
    (analysis : Analysis) :
    ((generate_report rrs now analysis).common_issues =
      { critical := simplify_issues analysis.common_issues.critical
        frequent := simplify_issues analysis.common_issues.frequent
        occasional := simplify_issues analysis.common_issues.occasional }) ∧
    ∀ (l : List IssueEntry) (g : IssueEntry → List String),
      simplify_issues (l.map (fun i => { i with sites := g i })) =
        simplify_issues l := by
  refine ⟨rfl, ?_⟩
  intro l g
  simp only [simplify_issues, List.map_map]
  rfl

/-- C7: a site with no payload or with the error flag set changes nothing in
the accumulator except appending its error entry to the by-site listing and
adding its theme tags to the global theme set; the error entry has null
scores, null vitals, an empty issue list and the error marker. -/
theorem c7_error_site_isolation (st : AnalyzeState) (r : RawResult)
    (h : r.lighthouse = none ∨ r.error = true) :
    processSite st r =
      { st with
        site_data := st.site_data ++ [errorSiteEntry r.site_info]
        all_themes := r.site_info.temas.foldl insertUniq st.all_themes } ∧
    (errorSiteEntry r.site_info).scores = none ∧
    (errorSiteEntry r.site_info).core_web_vitals = none ∧
    (errorSiteEntry r.site_info).issues = [] ∧
    (errorSiteEntry r.site_info).error = true ∧
    ∀ t ∈ r.site_info.temas, t ∈ (processSite st r).all_themes := by
  refine ⟨processSite_error st r h, rfl, rfl, rfl, rfl, ?_⟩
  intro t ht
  rw [processSite_error st r h]
  exact (mem_foldl_insertUniq _ _ _).2 (Or.inr ht)

/-- Concrete error site used by witnesses. -/
def wErrResult : RawResult :=
  { site_info := { nome := "err-site", temas := ["blog"] }, lighthouse := none,
    error := false }

/-- C7 witness: the theorem applied to a concrete error site and the empty
accumulator. -/
theorem c7_error_site_isolation_witness :
    processSite initState wErrResult =
      { initState with
        site_data := initState.site_data ++ [errorSiteEntry wErrResult.site_info]
        all_themes := wErrResult.site_info.temas.foldl insertUniq
          initState.all_themes } ∧
    (errorSiteEntry wErrResult.site_info).scores = none ∧
    (errorSiteEntry wErrResult.site_info).core_web_vitals = none ∧
    (errorSiteEntry wErrResult.site_info).issues = [] ∧
    (errorSiteEntry wErrResult.site_info).error = true ∧
    ∀ t ∈ wErrResult.site_info.temas,
      t ∈ (processSite initState wErrResult).all_themes :=
  c7_error_site_isolation initState wErrResult (Or.inl rfl)

/-! ### C1: failed-issue extraction -/

theorem failedAuditEntry_eq_some_iff (lh : LighthouseResult) (aid : String)
    (d : AuditData) :
    (∃ fa, failedAuditEntry lh aid d = some fa) ↔
      (aid ∉ METRIC_AUDITS ∧ ∃ s, d.score = some s ∧ s ≠ 1 ∧
        d.scoreDisplayMode ∉
          [some "manual", some "notApplicable", some "informative"]) := by
  by_cases hm : aid ∈ METRIC_AUDITS
  · simp [failedAuditEntry, hm]
  · cases hs : d.score with
    | none => simp [failedAuditEntry, hm, hs]
    | some s =>
      by_cases h1 : s = 1
      · simp [failedAuditEntry, hm, hs, h1]
      · by_cases hmode : d.scoreDisplayMode ∈
            [some "manual", some "notApplicable", some "informative"]
        · simp [failedAuditEntry, hm, hs, h1, hmode]
        · simp [failedAuditEntry, hm, hs, h1, hmode]

/-- C1: an audit record of a payload becomes a failed issue iff its id is not
one of the nine reserved metric ids, its score is present and strictly below 1,
and its display mode is not manual/notApplicable/informative; in particular
`server-response-time` never appears among failed issues. -/
theorem c1_failed_issue_extraction (lh : LighthouseResult)
    (hnd : (lh.audits.map Prod.fst).Nodup)
    (hwf : ∀ p ∈ lh.audits, (p.2.score.getD 0) ≤ 1) :
    (∀ aid d, (aid, d) ∈ lh.audits →
      ((∃ fa ∈ extract_failed_audits lh, fa.id = aid) ↔
        (aid ∉ METRIC_AUDITS ∧ ∃ s, d.score = some s ∧ s < 1 ∧
          d.scoreDisplayMode ∉
            [some "manual", some "notApplicable", some "informative"]))) ∧
    (∀ fa ∈ extract_failed_audits lh, fa.id ≠ "server-response-time") := by
  constructor
  · intro aid d hmem
    constructor
    · rintro ⟨fa, hfa, hid⟩
      rw [extract_failed_audits, List.mem_filterMap] at hfa
      obtain ⟨p, hp, hsome⟩ := hfa
      have hkey : p.1 = aid := (failedAuditEntry_id lh p.1 p.2 fa hsome) ▸ hid
      have hlook1 : lookupKey aid lh.audits = some d :=
        mem_lookupKey lh.audits aid d hnd hmem
      have hlook2 : lookupKey aid lh.audits = some p.2 := by
        rw [← hkey]
        exact mem_lookupKey lh.audits p.1 p.2 hnd (by
          rw [show (p.1, p.2) = p from rfl]
          exact hp)
      have hpd : p.2 = d := by
        rw [hlook1] at hlook2
        exact (Option.some.inj hlook2).symm
      have hex : ∃ fa', failedAuditEntry lh aid d = some fa' := by
        refine ⟨fa, ?_⟩
        rw [← hkey, ← hpd]
        exact hsome
      obtain ⟨hm, s, hs, hne, hmode⟩ := (failedAuditEntry_eq_some_iff lh aid d).1 hex
      refine ⟨hm, s, hs, ?_, hmode⟩
      have hle := hwf (aid, d) hmem
      rw [hs] at hle
      simp only [Option.getD_some] at hle
      exact lt_of_le_of_ne hle hne
    · rintro ⟨hm, s, hs, hlt, hmode⟩
      obtain ⟨fa, hfa⟩ := (failedAuditEntry_eq_some_iff lh aid d).2
        ⟨hm, s, hs, ne_of_lt hlt, hmode⟩
      exact ⟨fa, List.mem_filterMap.2 ⟨(aid, d), hmem, hfa⟩,
        failedAuditEntry_id lh aid d fa hfa⟩
  · intro fa hfa hbad
    rw [extract_failed_audits, List.mem_filterMap] at hfa
    obtain ⟨p, hp, hsome⟩ := hfa
    have hid := failedAuditEntry_id lh p.1 p.2 fa hsome
    have hmem9 : p.1 ∈ METRIC_AUDITS := by
      rw [← hid, hbad]
      decide
    unfold failedAuditEntry at hsome
    rw [if_pos hmem9] at hsome
    exact Option.noConfusion hsome

/-- Concrete payload used by witnesses: one genuine failed audit plus a
failing-scored reserved metric audit. -/
def wLh : LighthouseResult :=
  { audits :=
      [("unused-javascript",
        { score := some 0, scoreDisplayMode := some "numeric" }),
       ("server-response-time", { score := some 0 }),
       ("largest-contentful-paint", { numericValue := some 2500 })]
    categories :=
      [("performance",
        { score := some 1, auditRefs := ["unused-javascript"] })] }

/-- C1 witness: on `wLh` the failing actionable audit is extracted while the
reserved `server-response-time` audit is not, despite its failing score. -/
theorem c1_failed_issue_extraction_witness :
    (∃ fa ∈ extract_failed_audits wLh, fa.id = "unused-javascript") ∧
    ¬ ∃ fa ∈ extract_failed_audits wLh, fa.id = "server-response-time" := by
  have h := c1_failed_issue_extraction wLh (by decide) (by decide)
  constructor
  · exact (h.1 "unused-javascript"
      { score := some 0, scoreDisplayMode := some "numeric" } (by decide)).2
      ⟨by decide, 0, rfl, by decide, by decide⟩
  · rintro ⟨fa, hfa, hid⟩
    exact h.2 fa hfa hid

/-! ### C8: degenerate inputs -/

theorem rat_floor_intCast (z : ℤ) : (z : ℚ).floor = z := by
  rw [Rat.floor_def']
  simp

theorem roundHalfEven_intCast (z : ℤ) : roundHalfEven (z : ℚ) = z := by
  simp only [roundHalfEven, rat_floor_intCast, sub_self]
  norm_num

theorem pyRound_zero (n : ℕ) : pyRound n 0 = 0 := by
  have h : roundHalfEven 0 = 0 := by
    simpa using roundHalfEven_intCast 0
  rw [pyRound, zero_mul, h]
  simp

theorem foldl_allError (rs : List RawResult) (st : AnalyzeState)
    (h : ∀ r ∈ rs, r.lighthouse = none ∨ r.error = true) :
    (rs.foldl processSite st).issue_counts = st.issue_counts ∧
    (rs.foldl processSite st).cwv_totals = st.cwv_totals ∧
    (rs.foldl processSite st).successful_count = st.successful_count ∧
    (rs.foldl processSite st).total_performance = st.total_performance ∧
    (rs.foldl processSite st).total_seo = st.total_seo := by
  induction rs generalizing st with
  | nil => exact ⟨rfl, rfl, rfl, rfl, rfl⟩
  | cons r rest ih =>
    rw [List.foldl_cons, processSite_error st r (h r (by simp))]
    exact ih _ (fun r' hr' => h r' (by simp [hr']))

/-- C8: the aggregation is total and yields the documented degenerate results:
an empty input gives a zero-valued summary, empty tiers and no themes; an
all-error input gives zero successful audits, zero averages, an empty Core Web
Vitals map and empty issue tiers. -/
theorem c8_degenerate_inputs (rs : List RawResult)
    (h : ∀ r ∈ rs, r.lighthouse = none ∨ r.error = true) :
    ((analyze_results []).summary.total_sites = 0 ∧
     (analyze_results []).summary.successful_audits = 0 ∧
     (analyze_results []).summary.avg_performance = 0 ∧
     (analyze_results []).summary.avg_seo = 0 ∧
     (analyze_results []).common_issues.critical = [] ∧
     (analyze_results []).common_issues.frequent = [] ∧
     (analyze_results []).common_issues.occasional = [] ∧
     (analyze_results []).themes = []) ∧
    ((analyze_results rs).summary.successful_audits = 0 ∧
     (analyze_results rs).summary.avg_performance = 0 ∧
     (analyze_results rs).summary.avg_seo = 0 ∧
     (analyze_results rs).summary.core_web_vitals = [] ∧
     (analyze_results rs).common_issues.critical = [] ∧
     (analyze_results rs).common_issues.frequent = [] ∧
     (analyze_results rs).common_issues.occasional = []) := by
  obtain ⟨hic, hcw, hsc, htp, hts⟩ := foldl_allError rs initState h
  have hsc' : (finalState rs).successful_count = 0 := by
    rw [finalState, hsc]
    rfl
  have hic' : (finalState rs).issue_counts = [] := by
    rw [finalState, hic]
    rfl
  have hcw' : (finalState rs).cwv_totals = [] := by
    rw [finalState, hcw]
    rfl
  constructor
  · refine ⟨rfl, rfl, ?_, ?_, ?_, ?_, ?_, ?_⟩
    · simp [analyze_avg_performance_def, finalState, initState, pyRound_zero]
    · simp [analyze_avg_seo_def, finalState, initState, pyRound_zero]
    · simp [analyze_critical_def, finalState, initState, classifyIssues]
    · simp [analyze_frequent_def, finalState, initState, classifyIssues]
    · simp [analyze_occasional_def, finalState, initState, classifyIssues]
    · simp [analyze_themes_def, finalState, initState]
  · refine ⟨?_, ?_, ?_, ?_, ?_, ?_, ?_⟩
    · rw [analyze_successful_audits_def, hsc']
    · simp [analyze_avg_performance_def, hsc', pyRound_zero]
    · simp [analyze_avg_seo_def, hsc', pyRound_zero]
    · rw [analyze_cwv_def, hcw']
      rfl
    · simp [analyze_critical_def, hic', classifyIssues]
    · simp [analyze_frequent_def, hic', classifyIssues]
    · simp [analyze_occasional_def, hic', classifyIssues]

/-- C8 witness: the theorem applied to a one-element all-error roster. -/
theorem c8_degenerate_inputs_witness :
    (analyze_results [wErrResult]).summary.successful_audits = 0 ∧
    (analyze_results [wErrResult]).summary.avg_performance = 0 ∧
    (analyze_results [wErrResult]).summary.core_web_vitals = [] ∧
    (analyze_results [wErrResult]).common_issues.critical = [] := by
  have h := c8_degenerate_inputs [wErrResult]
    (fun r hr => by
      rw [List.mem_singleton] at hr
      subst hr
      exact Or.inl rfl)
  exact ⟨h.2.1, h.2.2.1, h.2.2.2.2.1, h.2.2.2.2.2.1⟩

/-! ### C2/C3/C4 support -/

/-- The percentage denominator as the spec words it: the successful-site
count, floored at 1 when zero sites succeeded. -/
def tierDenom (rs : List RawResult) : ℚ :=
  ((if succCount rs = 0 then 1 else succCount rs : ℕ) : ℚ)

theorem totalSitesNat_eq (rs : List RawResult) :
    totalSitesNat rs = if succCount rs = 0 then 1 else succCount rs := by
  rw [totalSitesNat, finalState_successful_count]

theorem tierDenom_eq (rs : List RawResult) :
    ((totalSitesNat rs : ℕ) : ℚ) = tierDenom rs := by
  rw [totalSitesNat_eq, tierDenom]

theorem pct_comm (c T : ℚ) : (c / T) * 100 = 100 * c / T := by
  ring

theorem analyze_tier_entries_from_map (rs : List RawResult) :
    ∀ e, (e ∈ (analyze_results rs).common_issues.critical ∨
          e ∈ (analyze_results rs).common_issues.frequent ∨
          e ∈ (analyze_results rs).common_issues.occasional) →
      e ∈ ((finalState rs).issue_counts).map
        (issueEntryOf ((totalSitesNat rs : ℕ) : ℚ)) := by
  intro e he
  rcases he with he | he | he
  · rw [analyze_critical_def] at he
    exact (classify_critical_sublist _ _).subset (List.mem_mergeSort.1 he)
  · rw [analyze_frequent_def] at he
    exact (classify_frequent_sublist _ _).subset (List.mem_mergeSort.1 he)
  · rw [analyze_occasional_def] at he
    exact (classify_occasional_sublist _ _).subset (List.mem_mergeSort.1 he)

theorem mem_map_issueEntryOf_percentage (T : ℚ) (ic : List (String × IssueData)) :
    ∀ e ∈ ic.map (issueEntryOf T),
      e.percentage = pyRound 1 (((e.count : ℚ) / T) * 100) := by
  intro e he
  obtain ⟨p, _, rfl⟩ := List.mem_map.1 he
  rfl

/-- C3: every tiered issue's reported percentage equals
`round(100 * count / successfulCount, 1)` with the zero-successes guard, and
the denominator is the successfully-audited-site count, never the roster
length. -/
theorem c3_percentage_formula (rs : List RawResult) :
    (∀ e ∈ (analyze_results rs).common_issues.critical ++
        (analyze_results rs).common_issues.frequent ++
        (analyze_results rs).common_issues.occasional,
      e.percentage = pyRound 1 (100 * (e.count : ℚ) / tierDenom rs)) ∧
    (analyze_results rs).summary.successful_audits = succCount rs := by
  constructor
  · intro e he
    rw [List.mem_append, List.mem_append] at he
    have he' : e ∈ ((finalState rs).issue_counts).map
        (issueEntryOf ((totalSitesNat rs : ℕ) : ℚ)) := by
      apply analyze_tier_entries_from_map rs e
      tauto
    rw [mem_map_issueEntryOf_percentage _ _ e he', pct_comm, tierDenom_eq]
  · rw [analyze_successful_audits_def, finalState_successful_count]

/-- Successful site fixture used by witnesses: two failing actionable audits. -/
def wOkResult : RawResult :=
  { site_info := { nome := "ok-site", temas := ["press"] }
    lighthouse := some wLh
    error := false }

/-- C3 witness: the theorem applied to the two-site roster
`[wOkResult, wErrResult]`. -/
theorem c3_percentage_formula_witness :
    (∀ e ∈ (analyze_results [wOkResult, wErrResult]).common_issues.critical ++
        (analyze_results [wOkResult, wErrResult]).common_issues.frequent ++
        (analyze_results [wOkResult, wErrResult]).common_issues.occasional,
      e.percentage =
        pyRound 1 (100 * (e.count : ℚ) / tierDenom [wOkResult, wErrResult])) ∧
    (analyze_results [wOkResult, wErrResult]).summary.successful_audits =
      succCount [wOkResult, wErrResult] :=
  c3_percentage_formula [wOkResult, wErrResult]

/-- C2: tier assignment is a strict partition with the boundary predicates
percentage > 70 / 30 ≤ percentage ≤ 70 / percentage < 30 (on the exact,
unrounded percentage), every observed issue id lands in exactly one tier,
and the tier sizes sum to the number of distinct observed issue ids. -/
theorem c2_tier_partition (rs : List RawResult) :
    (∀ e ∈ (analyze_results rs).common_issues.critical,
      70 < 100 * (e.count : ℚ) / tierDenom rs) ∧
    (∀ e ∈ (analyze_results rs).common_issues.frequent,
      30 ≤ 100 * (e.count : ℚ) / tierDenom rs ∧
        100 * (e.count : ℚ) / tierDenom rs ≤ 70) ∧
    (∀ e ∈ (analyze_results rs).common_issues.occasional,
      100 * (e.count : ℚ) / tierDenom rs < 30) ∧
    (∀ i ∈ observedIssueIds rs,
      (((analyze_results rs).common_issues.critical ++
        (analyze_results rs).common_issues.frequent ++
        (analyze_results rs).common_issues.occasional).countP
          (fun e => e.id == i)) = 1) ∧
    ((analyze_results rs).common_issues.critical.length +
      (analyze_results rs).common_issues.frequent.length +
      (analyze_results rs).common_issues.occasional.length =
      (observedIssueIds rs).toFinset.card) := by
  have hperm : List.Perm
      ((analyze_results rs).common_issues.critical ++
        ((analyze_results rs).common_issues.frequent ++
          (analyze_results rs).common_issues.occasional))
      (((finalState rs).issue_counts).map
        (issueEntryOf ((totalSitesNat rs : ℕ) : ℚ))) := by
    rw [analyze_critical_def, analyze_frequent_def, analyze_occasional_def]
    exact ((List.mergeSort_perm _ _).append
      ((List.mergeSort_perm _ _).append (List.mergeSort_perm _ _))).trans
      (classify_perm _ _)
  refine ⟨?_, ?_, ?_, ?_, ?_⟩
  · intro e he
    rw [analyze_critical_def] at he
    have h := classify_critical_pct _ _ e (List.mem_mergeSort.1 he)
    rw [pct_comm, tierDenom_eq] at h
    exact h
  · intro e he
    rw [analyze_frequent_def] at he
    have h := classify_frequent_pct _ _ e (List.mem_mergeSort.1 he)
    rw [pct_comm, tierDenom_eq] at h
    exact h
  · intro e he
    rw [analyze_occasional_def] at he
    have h := classify_occasional_pct _ _ e (List.mem_mergeSort.1 he)
    rw [pct_comm, tierDenom_eq] at h
    exact h
  · intro i hi
    rw [List.append_assoc, hperm.countP_eq, List.countP_map]
    have hfn : ((fun e : IssueEntry => e.id == i) ∘
        issueEntryOf ((totalSitesNat rs : ℕ) : ℚ)) =
        fun kd : String × IssueData => kd.1 == i := rfl
    rw [hfn]
    have h4 : ((finalState rs).issue_counts).countP
        (fun kd : String × IssueData => kd.1 == i) =
        (((finalState rs).issue_counts).map Prod.fst).countP
          (fun s => s == i) := by
      rw [List.countP_map]
      rfl
    rw [h4]
    rw [show ((((finalState rs).issue_counts).map Prod.fst).countP
        (fun s => s == i)) =
        List.count i (((finalState rs).issue_counts).map Prod.fst) from rfl]
    exact List.count_eq_one_of_mem (finalState_issue_keys_nodup rs)
      ((mem_finalState_issue_keys rs i).2 hi)
  · have hlen := hperm.length_eq
    rw [List.length_append, List.length_append, List.length_map] at hlen
    have h5 : ((((finalState rs).issue_counts).map Prod.fst).toFinset :
        Finset String) = (observedIssueIds rs).toFinset := by
      ext a
      simp only [List.mem_toFinset]
      exact mem_finalState_issue_keys rs a
    have h6 : ((finalState rs).issue_counts).length =
        (observedIssueIds rs).toFinset.card := by
      calc ((finalState rs).issue_counts).length
          = (((finalState rs).issue_counts).map Prod.fst).length := by
            rw [List.length_map]
        _ = (((finalState rs).issue_counts).map Prod.fst).toFinset.card :=
            (List.toFinset_card_of_nodup (finalState_issue_keys_nodup rs)).symm
        _ = (observedIssueIds rs).toFinset.card := by rw [h5]
    omega

/-- C2 witness: on the two-site roster the observed issue id
`unused-javascript` appears in exactly one tier. -/
theorem c2_tier_partition_witness :
    (((analyze_results [wOkResult, wErrResult]).common_issues.critical ++
      (analyze_results [wOkResult, wErrResult]).common_issues.frequent ++
      (analyze_results [wOkResult, wErrResult]).common_issues.occasional).countP
        (fun e => e.id == "unused-javascript")) = 1 :=
  (c2_tier_partition [wOkResult, wErrResult]).2.2.2.1 "unused-javascript"
    (by decide)

/-! ### C4: in-tier ordering -/

theorem tier_filter_firstSeen (rs : List RawResult) (l : List IssueEntry)
    (hsub : List.Sublist l (((finalState rs).issue_counts).map
      (issueEntryOf ((totalSitesNat rs : ℕ) : ℚ)))) (n : ℕ) :
    List.Sublist
      (((l.mergeSort countDescBool).filter (fun e => e.count == n)).map (·.id))
      (firstSeen (observedIssueIds rs)) := by
  rw [filter_mergeSort_count]
  have h2 := (List.filter_sublist (p := fun e => e.count == n) l).trans hsub
  have h3 := h2.map (·.id)
  rw [List.map_map] at h3
  rw [show ((fun e : IssueEntry => e.id) ∘
      issueEntryOf ((totalSitesNat rs : ℕ) : ℚ)) = Prod.fst from rfl] at h3
  rw [finalState_issue_keys] at h3
  exact h3

/-- C4: within each tier the issues are sorted by raw occurrence count
descending, and issues with equal counts keep their first-encounter order over
the input (their ids form a sublist of the first-seen order of all observed
issue ids). -/
theorem c4_tier_ordering_stable (rs : List RawResult) :
    ((analyze_results rs).common_issues.critical.Pairwise
        (fun a b => b.count ≤ a.count) ∧
      (analyze_results rs).common_issues.frequent.Pairwise
        (fun a b => b.count ≤ a.count) ∧
      (analyze_results rs).common_issues.occasional.Pairwise
        (fun a b => b.count ≤ a.count)) ∧
    (∀ n : ℕ,
      List.Sublist
        (((analyze_results rs).common_issues.critical.filter
          (fun e => e.count == n)).map (·.id))
        (firstSeen (observedIssueIds rs)) ∧
      List.Sublist
        (((analyze_results rs).common_issues.frequent.filter
          (fun e => e.count == n)).map (·.id))
        (firstSeen (observedIssueIds rs)) ∧
      List.Sublist
        (((analyze_results rs).common_issues.occasional.filter
          (fun e => e.count == n)).map (·.id))
        (firstSeen (observedIssueIds rs))) := by
  constructor
  · refine ⟨?_, ?_, ?_⟩
    · rw [analyze_critical_def]
      exact mergeSort_count_sorted _
    · rw [analyze_frequent_def]
      exact mergeSort_count_sorted _
    · rw [analyze_occasional_def]
      exact mergeSort_count_sorted _
  · intro n
    refine ⟨?_, ?_, ?_⟩
    · rw [analyze_critical_def]
      exact tier_filter_firstSeen rs _ (classify_critical_sublist _ _) n
    · rw [analyze_frequent_def]
      exact tier_filter_firstSeen rs _ (classify_frequent_sublist _ _) n
    · rw [analyze_occasional_def]
      exact tier_filter_firstSeen rs _ (classify_occasional_sublist _ _) n

/-! ### C10: occurrence-count bounds -/

theorem isSuccess_iff (r : RawResult) :
    isSuccess r = true ↔ ∃ lh, r.lighthouse = some lh ∧ r.error = false := by
  unfold isSuccess
  cases hl : r.lighthouse <;> cases he : r.error <;> simp [hl, he]

theorem siteFailedAudits_of_not_success (r : RawResult)
    (h : ¬ isSuccess r = true) : siteFailedAudits r = [] := by
  unfold isSuccess at h
  unfold siteFailedAudits
  cases hl : r.lighthouse <;> cases he : r.error <;> simp_all

theorem finalState_def (rs : List RawResult) :
    rs.foldl processSite initState = finalState rs := rfl

theorem issue_bounds_foldl (rs : List RawResult) (st : AnalyzeState)
    (hnd : ∀ r ∈ rs, ∀ lh, r.lighthouse = some lh →
      (lh.audits.map Prod.fst).Nodup)
    (hinv : ∀ k, getCount st.issue_counts k ≤ st.successful_count ∧
      (k ∈ st.issue_counts.map Prod.fst → 1 ≤ getCount st.issue_counts k)) :
    ∀ k, getCount (rs.foldl processSite st).issue_counts k ≤
        (rs.foldl processSite st).successful_count ∧
      (k ∈ ((rs.foldl processSite st).issue_counts).map Prod.fst →
        1 ≤ getCount (rs.foldl processSite st).issue_counts k) := by
  induction rs generalizing st with
  | nil => exact hinv
  | cons r rest ih =>
    rw [List.foldl_cons]
    apply ih
    · intro r' h' lh hl
      exact hnd r' (List.mem_cons_of_mem r h') lh hl
    · intro k
      by_cases hs : isSuccess r = true
      · obtain ⟨lh, hl, he⟩ := (isSuccess_iff r).1 hs
        have hsf : siteFailedAudits r = extract_failed_audits lh := by
          simp [siteFailedAudits, hl, he]
        have hids : ((siteFailedAudits r).map (·.id)).Nodup := by
          rw [hsf]
          exact extract_failed_audits_ids_nodup lh
            (hnd r (List.mem_cons_self r rest) lh hl)
        have hic := processSite_issue_counts st r
        have hsc : (processSite st r).successful_count =
            st.successful_count + 1 := by
          rw [processSite_successful_count, if_pos hs]
        constructor
        · rw [hic, hsc, getCount_foldl_recordIssue _ _ _ _ _ hids]
          have h1 := (hinv k).1
          by_cases hm : k ∈ (siteFailedAudits r).map (·.id) <;>
            simp only [hm, if_pos, if_neg, if_true, if_false] <;> omega
        · intro hk
          rw [hic, getCount_foldl_recordIssue _ _ _ _ _ hids]
          rw [hic, keys_foldl_recordIssue] at hk
          rcases (mem_foldl_insertUniq _ _ _).1 hk with hk' | hk'
          · have h2 := (hinv k).2 hk'
            by_cases hm : k ∈ (siteFailedAudits r).map (·.id) <;>
              simp only [hm, if_true, if_false] <;> omega
          · rw [if_pos hk']
            omega
      · have hsf : siteFailedAudits r = [] := siteFailedAudits_of_not_success r hs
        have hic := processSite_issue_counts st r
        rw [hsf] at hic
        simp only [List.foldl_nil] at hic
        have hsc : (processSite st r).successful_count = st.successful_count := by
          rw [processSite_successful_count, if_neg hs]
          omega
        rw [hic, hsc]
        exact hinv k

/-- C10: with at least one successful site and well-formed payloads (each
audit id mapped at most once), every tiered issue has an occurrence count
between 1 and the successful-site count, so its exact percentage lies in
(0, 100]. -/
theorem c10_count_bounds (rs : List RawResult)
    (hnd : ∀ r ∈ rs, ∀ lh, r.lighthouse = some lh →
      (lh.audits.map Prod.fst).Nodup)
    (hpos : 1 ≤ succCount rs) :
    ∀ e, (e ∈ (analyze_results rs).common_issues.critical ∨
          e ∈ (analyze_results rs).common_issues.frequent ∨
          e ∈ (analyze_results rs).common_issues.occasional) →
      (1 ≤ e.count ∧ e.count ≤ succCount rs) ∧
      (0 < 100 * (e.count : ℚ) / (succCount rs : ℚ) ∧
        100 * (e.count : ℚ) / (succCount rs : ℚ) ≤ 100) := by
  intro e he
  have hmap := analyze_tier_entries_from_map rs e he
  obtain ⟨p, hp, rfl⟩ := List.mem_map.1 hmap
  have hb := issue_bounds_foldl rs initState hnd (by
    intro k
    constructor
    · simp [getCount, initState, lookupKey, defaultIssueData]
    · intro hk
      simp [initState] at hk)
  rw [finalState_def] at hb
  have hcount : getCount (finalState rs).issue_counts p.1 = p.2.count := by
    unfold getCount
    rw [mem_lookupKey _ _ _ (finalState_issue_keys_nodup rs)
      (by rw [show (p.1, p.2) = p from rfl]; exact hp)]
    rfl
  have hkmem : p.1 ∈ ((finalState rs).issue_counts).map Prod.fst :=
    List.mem_map.2 ⟨p, hp, rfl⟩
  have h1 : 1 ≤ p.2.count := by
    have := (hb p.1).2 hkmem
    rwa [hcount] at this
  have h2 : p.2.count ≤ succCount rs := by
    have := (hb p.1).1
    rwa [hcount, finalState_successful_count] at this
  have hcnt : (issueEntryOf ((totalSitesNat rs : ℕ) : ℚ) p).count = p.2.count :=
    rfl
  rw [hcnt]
  have hSpos : (0 : ℚ) < (succCount rs : ℚ) := by
    exact_mod_cast Nat.lt_of_lt_of_le Nat.zero_lt_one hpos
  have hcq : (1 : ℚ) ≤ (p.2.count : ℚ) := by exact_mod_cast h1
  have hcS : ((p.2.count : ℕ) : ℚ) ≤ (succCount rs : ℚ) := by exact_mod_cast h2
  refine ⟨⟨h1, h2⟩, ?_, ?_⟩
  · apply div_pos _ hSpos
    nlinarith
  · rw [div_le_iff hSpos]
    nlinarith

/-- The two-site roster used by witnesses. -/
def wRoster : List RawResult := [wOkResult, wErrResult]

/-- The issue-count entry the successful site produces on `wRoster`. -/
def wIssueData : IssueData :=
  { count := 1, title := "unused-javascript", description := "",
    category := "performance", sites := ["ok-site"], temas := ["press"],
    impact := "high", affectedMetrics := ["LCP", "TBT"] }

/-- The tiered entry built from `wIssueData` on `wRoster`. -/
def wIssueEntry : IssueEntry :=
  issueEntryOf ((totalSitesNat wRoster : ℕ) : ℚ) ("unused-javascript", wIssueData)

theorem wIssueEntry_mem_critical :
    wIssueEntry ∈ (analyze_results wRoster).common_issues.critical := by
  rw [analyze_critical_def]
  apply List.mem_mergeSort.2
  have hic : (finalState wRoster).issue_counts =
      [("unused-javascript", wIssueData)] := by decide
  have hT : ((totalSitesNat wRoster : ℕ) : ℚ) = 1 := by
    rw [show totalSitesNat wRoster = 1 from by decide]
    norm_num
  rw [hic]
  simp only [classifyIssues]
  split_ifs with h1 h2
  · exact List.mem_cons_self _ _
  · exfalso
    rw [hT] at h1
    norm_num [wIssueData] at h1
  · exfalso
    rw [hT] at h1
    norm_num [wIssueData] at h1

/-- C10 witness: the theorem applied to the two-site roster and the concrete
critical-tier entry, with every hypothesis discharged. -/
theorem c10_count_bounds_witness :
    (1 ≤ wIssueEntry.count ∧ wIssueEntry.count ≤ succCount wRoster) ∧
    (0 < 100 * (wIssueEntry.count : ℚ) / (succCount wRoster : ℚ) ∧
      100 * (wIssueEntry.count : ℚ) / (succCount wRoster : ℚ) ≤ 100) :=
  c10_count_bounds wRoster (by decide) (by decide) wIssueEntry
    (Or.inl wIssueEntry_mem_critical)

/-! ### C6: Core Web Vitals averages -/

/-- Loop body of the `cwv_totals` accumulation for one `(metric, value)` pair. -/
def cwvStep (t : List (String × (ℚ × ℕ))) (p : String × Option ℚ) :
    List (String × (ℚ × ℕ)) :=
  match p.2 with
  | some v => recordCwv t p.1 v
  | none => t

/-- `sum += value; count += 1` on an optional totals entry (absent = (0,0)). -/
def cwvUpd (acc : Option (ℚ × ℕ)) (v : ℚ) : Option (ℚ × ℕ) :=
  some ((acc.getD (0, 0)).1 + v, (acc.getD (0, 0)).2 + 1)

theorem processSite_cwv_totals_step (st : AnalyzeState) (r : RawResult) :
    (processSite st r).cwv_totals = (siteCwv r).foldl cwvStep st.cwv_totals :=
  processSite_cwv_totals st r

theorem extract_cwv_keys (lh : LighthouseResult) :
    (extract_core_web_vitals lh).map Prod.fst =
      ["lcp", "fid", "cls", "fcp", "tbt", "si"] := rfl

theorem siteCwv_keys_nodup (r : RawResult) :
    ((siteCwv r).map Prod.fst).Nodup := by
  unfold siteCwv
  cases r.lighthouse with
  | none => simp
  | some lh =>
    show (List.map Prod.fst
      (if r.error = true then [] else extract_core_web_vitals lh)).Nodup
    by_cases he : r.error = true
    · rw [if_pos he]
      simp
    · rw [if_neg he, extract_cwv_keys]
      decide

theorem lookup_cwv_fold (cl : List (String × Option ℚ))
    (t : List (String × (ℚ × ℕ))) (m : String)
    (hnd : (cl.map Prod.fst).Nodup) :
    lookupKey m (cl.foldl cwvStep t) =
      match lookupKey m cl with
      | some (some v) => cwvUpd (lookupKey m t) v
      | some none => lookupKey m t
      | none => lookupKey m t := by
  induction cl generalizing t with
  | nil => simp [lookupKey]
  | cons p rest ih =>
    rw [List.map_cons, List.nodup_cons] at hnd
    rw [List.foldl_cons, ih _ hnd.2]
    by_cases hm : p.1 = m
    · subst hm
      have hrest : lookupKey p.1 rest = none :=
        (lookupKey_eq_none rest p.1).2 hnd.1
      have hcons : lookupKey p.1 (p :: rest) = some p.2 := by
        simp [lookupKey]
      rw [hrest, hcons]
      cases hv : p.2 with
      | none => simp [cwvStep, hv]
      | some v =>
        simp only [cwvStep, hv]
        rw [recordCwv, lookupKey_upsert, if_pos rfl]
        simp [cwvUpd]
    · have hcons : lookupKey m (p :: rest) = lookupKey m rest := by
        simp [lookupKey, hm]
      rw [hcons]
      have hstep : lookupKey m (cwvStep t p) = lookupKey m t := by
        cases hv : p.2 with
        | none => simp [cwvStep, hv]
        | some v =>
          simp only [cwvStep, hv]
          rw [recordCwv, lookupKey_upsert, if_neg (fun h => hm h.symm)]
      rw [hstep]

theorem cwv_totals_foldl (rs : List RawResult) (st : AnalyzeState) (m : String) :
    lookupKey m ((rs.foldl processSite st).cwv_totals) =
      (providedVals m rs).foldl cwvUpd (lookupKey m st.cwv_totals) := by
  induction rs generalizing st with
  | nil => simp [providedVals]
  | cons r rest ih =>
    rw [List.foldl_cons, ih, processSite_cwv_totals_step,
      lookup_cwv_fold (siteCwv r) st.cwv_totals m (siteCwv_keys_nodup r)]
    cases hlook : lookupKey m (siteCwv r) with
    | none =>
      have hpv : providedVals m (r :: rest) = providedVals m rest := by
        simp [providedVals, List.filterMap_cons, hlook]
      rw [hpv]
    | some ov =>
      cases ov with
      | none =>
        have hpv : providedVals m (r :: rest) = providedVals m rest := by
          simp [providedVals, List.filterMap_cons, hlook]
        rw [hpv]
      | some v =>
        have hpv : providedVals m (r :: rest) = v :: providedVals m rest := by
          simp [providedVals, List.filterMap_cons, hlook]
        rw [hpv, List.foldl_cons]

theorem foldl_cwvUpd_some (vals : List ℚ) (s : ℚ) (c : ℕ) :
    vals.foldl cwvUpd (some (s, c)) = some (s + vals.sum, c + vals.length) := by
  induction vals generalizing s c with
  | nil => simp
  | cons v rest ih =>
    rw [List.foldl_cons]
    show rest.foldl cwvUpd (some (s + v, c + 1)) = _
    rw [ih]
    simp only [List.sum_cons, List.length_cons, Option.some.injEq, Prod.mk.injEq]
    exact ⟨by ring, by omega⟩

theorem foldl_cwvUpd_none (vals : List ℚ) :
    vals.foldl cwvUpd none =
      if vals = [] then none else some (vals.sum, vals.length) := by
  cases vals with
  | nil => rfl
  | cons v rest =>
    rw [List.foldl_cons]
    show rest.foldl cwvUpd (some (0 + v, 0 + 1)) = _
    rw [foldl_cwvUpd_some]
    simp only [List.sum_cons, List.length_cons, if_neg (List.cons_ne_nil v rest),
      Option.some.injEq, Prod.mk.injEq]
    exact ⟨by ring, by omega⟩

/-- C6: a Core Web Vitals average is absent from the summary iff no successful
site provided a value for that metric; when present it equals
`round(sum / count, 2)` over exactly the providing sites, and it is never an
explicit null. -/
theorem c6_cwv_averages (rs : List RawResult) : ∀ m : String,
    (lookupKey m (analyze_results rs).summary.core_web_vitals = none ↔
      providedVals m rs = []) ∧
    (∀ v : ℚ, lookupKey m (analyze_results rs).summary.core_web_vitals =
        some (some v) →
      v = pyRound 2 ((providedVals m rs).sum /
        ((providedVals m rs).length : ℚ))) ∧
    lookupKey m (analyze_results rs).summary.core_web_vitals ≠ some none := by
  intro m
  have hlk : lookupKey m (analyze_results rs).summary.core_web_vitals =
      (lookupKey m (finalState rs).cwv_totals).map
        (fun q : ℚ × ℕ =>
          if 0 < q.2 then some (pyRound 2 (q.1 / (q.2 : ℚ))) else none) := by
    rw [analyze_cwv_def]
    exact lookupKey_map_snd (finalState rs).cwv_totals
      (fun q : ℚ × ℕ =>
        if 0 < q.2 then some (pyRound 2 (q.1 / (q.2 : ℚ))) else none) m
  have htot : lookupKey m (finalState rs).cwv_totals =
      (providedVals m rs).foldl cwvUpd none := by
    have h := cwv_totals_foldl rs initState m
    rw [finalState_def] at h
    simpa [initState, lookupKey] using h
  rw [hlk, htot, foldl_cwvUpd_none]
  by_cases hv : providedVals m rs = []
  · rw [if_pos hv]
    refine ⟨by simp [hv], by simp, by simp⟩
  · rw [if_neg hv]
    have hlen : 0 < (providedVals m rs).length := List.length_pos.2 hv
    refine ⟨by simp [hv], ?_, ?_⟩
    · intro v hveq
      rw [Option.map_some'] at hveq
      rw [if_pos hlen] at hveq
      exact (Option.some.inj (Option.some.inj hveq)).symm
    · intro hbad
      rw [Option.map_some'] at hbad
      rw [if_pos hlen] at hbad
      exact Option.noConfusion (Option.some.inj hbad)

/-- C6 witness: on the two-site roster the lcp average is present (the
successful site provided a value) while the fid average is absent. -/
theorem c6_cwv_averages_witness :
    lookupKey "lcp"
      (analyze_results [wOkResult, wErrResult]).summary.core_web_vitals ≠
      none ∧
    lookupKey "fid"
      (analyze_results [wOkResult, wErrResult]).summary.core_web_vitals =
      none := by
  constructor
  · intro hn
    have h := (c6_cwv_averages [wOkResult, wErrResult] "lcp").1.1 hn
    exact absurd h (by decide)
  · exact (c6_cwv_averages [wOkResult, wErrResult] "fid").1.2 (by decide)

/-- C4 witness: the theorem applied to the two-site roster; its critical tier
is sorted descending by count. -/
theorem c4_tier_ordering_stable_witness :
    (analyze_results [wOkResult, wErrResult]).common_issues.critical.Pairwise
      (fun a b => b.count ≤ a.count) :=
  (c4_tier_ordering_stable [wOkResult, wErrResult]).1.1

/-- C9 witness: the theorem applied to a concrete report generation. -/
theorem c9_simplified_issues_witness :
    (generate_report [wErrResult] "2026-01-01T00:00:00"
        (analyze_results [wErrResult])).common_issues =
      { critical := simplify_issues
          (analyze_results [wErrResult]).common_issues.critical
        frequent := simplify_issues
          (analyze_results [wErrResult]).common_issues.frequent
        occasional := simplify_issues
          (analyze_results [wErrResult]).common_issues.occasional } :=
  (c9_simplified_issues [wErrResult] "2026-01-01T00:00:00"
    (analyze_results [wErrResult])).1
